import Mathlib

/-!
A shallow embedding of `src/parse_join.py` (the `parse_joinrpg` repository).

The script is a linear pipeline: load a YAML configuration, authenticate
against a REST API, fetch a list of character summaries, fetch one detail
record per character, and export the collected records to a CSV file via
`pandas.json_normalize` + `DataFrame.to_csv`.

The embedding models:
  * JSON-like dynamic values (`Json`), as produced by `response.json()` and
    `yaml.safe_load`;
  * the behaviour of the remote API and the configuration file as a `World`
    record (one deterministic run of the script against that world);
  * the observable effects of a run: the log, the sequence of issued HTTP
    requests, whether the exporter was invoked, and the written table;
  * Python exceptions that the script does not catch as a `PyError` escaping
    in the second component of the result (`some e` means the exception
    propagates out of `fetch_character_data`).

URL template formatting (`str.format`, lines 66 and 96) is modelled by
`pyFormat`: named placeholders are substituted by `str()` of the keyword
arguments, an unknown placeholder raises `KeyError`, an empty field raises
`IndexError`, stray braces raise `ValueError`, and a non-string template
raises `AttributeError` — the uncaught format-error escape paths of the
source are preserved.
-/

/-- Dynamic JSON-like values (results of `response.json()` / `yaml.safe_load`).
Numbers are modelled as integers. -/
inductive Json where
  | null : Json
  | bool : Bool → Json
  | num : Int → Json
  | str : String → Json
  | arr : List Json → Json
  | obj : List (String × Json) → Json
deriving Repr, Inhabited

mutual
/-- Decidable equality on `Json` (written by hand: the nested occurrence of
`List` defeats the automatic derivation). -/
def Json.decEq : (a b : Json) → Decidable (a = b)
  | .null, .null => .isTrue rfl
  | .bool a, .bool b =>
      if h : a = b then .isTrue (congrArg Json.bool h)
      else .isFalse (by intro hh; injection hh with h1; exact h h1)
  | .num a, .num b =>
      if h : a = b then .isTrue (congrArg Json.num h)
      else .isFalse (by intro hh; injection hh with h1; exact h h1)
  | .str a, .str b =>
      if h : a = b then .isTrue (congrArg Json.str h)
      else .isFalse (by intro hh; injection hh with h1; exact h h1)
  | .arr as, .arr bs =>
      match Json.decEqList as bs with
      | .isTrue h => .isTrue (congrArg Json.arr h)
      | .isFalse h => .isFalse (by intro hh; injection hh with h1; exact h h1)
  | .obj afs, .obj bfs =>
      match Json.decEqFields afs bfs with
      | .isTrue h => .isTrue (congrArg Json.obj h)
      | .isFalse h => .isFalse (by intro hh; injection hh with h1; exact h h1)
  | .null, .bool _ => .isFalse (fun h => Json.noConfusion h)
  | .null, .num _ => .isFalse (fun h => Json.noConfusion h)
  | .null, .str _ => .isFalse (fun h => Json.noConfusion h)
  | .null, .arr _ => .isFalse (fun h => Json.noConfusion h)
  | .null, .obj _ => .isFalse (fun h => Json.noConfusion h)
  | .bool _, .null => .isFalse (fun h => Json.noConfusion h)
  | .bool _, .num _ => .isFalse (fun h => Json.noConfusion h)
  | .bool _, .str _ => .isFalse (fun h => Json.noConfusion h)
  | .bool _, .arr _ => .isFalse (fun h => Json.noConfusion h)
  | .bool _, .obj _ => .isFalse (fun h => Json.noConfusion h)
  | .num _, .null => .isFalse (fun h => Json.noConfusion h)
  | .num _, .bool _ => .isFalse (fun h => Json.noConfusion h)
  | .num _, .str _ => .isFalse (fun h => Json.noConfusion h)
  | .num _, .arr _ => .isFalse (fun h => Json.noConfusion h)
  | .num _, .obj _ => .isFalse (fun h => Json.noConfusion h)
  | .str _, .null => .isFalse (fun h => Json.noConfusion h)
  | .str _, .bool _ => .isFalse (fun h => Json.noConfusion h)
  | .str _, .num _ => .isFalse (fun h => Json.noConfusion h)
  | .str _, .arr _ => .isFalse (fun h => Json.noConfusion h)
  | .str _, .obj _ => .isFalse (fun h => Json.noConfusion h)
  | .arr _, .null => .isFalse (fun h => Json.noConfusion h)
  | .arr _, .bool _ => .isFalse (fun h => Json.noConfusion h)
  | .arr _, .num _ => .isFalse (fun h => Json.noConfusion h)
  | .arr _, .str _ => .isFalse (fun h => Json.noConfusion h)
  | .arr _, .obj _ => .isFalse (fun h => Json.noConfusion h)
  | .obj _, .null => .isFalse (fun h => Json.noConfusion h)
  | .obj _, .bool _ => .isFalse (fun h => Json.noConfusion h)
  | .obj _, .num _ => .isFalse (fun h => Json.noConfusion h)
  | .obj _, .str _ => .isFalse (fun h => Json.noConfusion h)
  | .obj _, .arr _ => .isFalse (fun h => Json.noConfusion h)

/-- Decidable equality on lists of `Json`. -/
def Json.decEqList : (as bs : List Json) → Decidable (as = bs)
  | [], [] => .isTrue rfl
  | [], _ :: _ => .isFalse (fun h => List.noConfusion h)
  | _ :: _, [] => .isFalse (fun h => List.noConfusion h)
  | a :: as, b :: bs =>
    match Json.decEq a b with
    | .isTrue h1 =>
      match Json.decEqList as bs with
      | .isTrue h2 => .isTrue (by rw [h1, h2])
      | .isFalse h2 => .isFalse (by intro hh; injection hh with e1 e2; exact h2 e2)
    | .isFalse h1 => .isFalse (by intro hh; injection hh with e1 e2; exact h1 e1)

/-- Decidable equality on `Json` object fields. -/
def Json.decEqFields : (as bs : List (String × Json)) → Decidable (as = bs)
  | [], [] => .isTrue rfl
  | [], _ :: _ => .isFalse (fun h => List.noConfusion h)
  | _ :: _, [] => .isFalse (fun h => List.noConfusion h)
  | (k1, v1) :: as, (k2, v2) :: bs =>
    if hk : k1 = k2 then
      match Json.decEq v1 v2 with
      | .isTrue h1 =>
        match Json.decEqFields as bs with
        | .isTrue h2 => .isTrue (by rw [hk, h1, h2])
        | .isFalse h2 =>
            .isFalse (by intro hh; injection hh with e1 e2; exact h2 e2)
      | .isFalse h1 =>
          .isFalse (by
            intro hh; injection hh with e1 e2
            exact h1 (congrArg Prod.snd e1))
    else
      .isFalse (by
        intro hh; injection hh with e1 e2
        exact hk (congrArg Prod.fst e1))
end

instance : DecidableEq Json := Json.decEq

/-- Python truthiness (`if not x`) on JSON-like values: `None`, `False`, `0`,
`""`, `[]`, `{}` are falsy. -/
def Json.truthy : Json → Bool
  | .null => false
  | .bool b => b
  | .num n => n != 0
  | .str s => s != ""
  | .arr xs => !xs.isEmpty
  | .obj fs => !fs.isEmpty

/-- Whether a value is a Python dict. -/
def Json.isObj : Json → Bool
  | .obj _ => true
  | _ => false

/-- `dict.get(key)`: `some v` when present, `none` (Python `None`) otherwise.
Only defined on objects; callers model `AttributeError` separately for
non-dict receivers. -/
def Json.get : Json → String → Option Json
  | .obj fs, k => fs.lookup k
  | _, _ => none

/-- Python `str()` rendering, as used by f-strings and `str.format`.
Container renderings are abbreviated; no claim depends on them. -/
def pyStr : Json → String
  | .null => "None"
  | .bool true => "True"
  | .bool false => "False"
  | .num n => toString n
  | .str s => s
  | .arr _ => "<list>"
  | .obj _ => "<dict>"

/-- Uncaught Python exceptions of the script, one constructor per exception
class that can escape `fetch_character_data`. -/
inductive PyError where
  | yamlError : PyError
  | keyError : PyError
  | typeError : PyError
  | valueError : PyError
  | indexError : PyError
  | attributeError : PyError
  | transportError : PyError
deriving Repr, DecidableEq

/-- One HTTP response: status code, raw body text, and the result of
`.json()` on it (`none` models a `ValueError` on decoding). -/
structure HttpResponse where
  status : Nat
  text : String
  jsonBody : Option Json
deriving Repr, DecidableEq

/-- Result of issuing a request: either a response arrived, or a
transport-level failure (`requests.exceptions.ConnectionError` and kin)
was raised by the session call itself. -/
inductive ReqResult where
  | transportError : ReqResult
  | response : HttpResponse → ReqResult
deriving Repr, DecidableEq

/-- `Response.raise_for_status` raises `HTTPError` exactly for status codes
400–599. -/
def raiseForStatus (s : Nat) : Bool :=
  decide (400 ≤ s) && decide (s < 600)

/-- `requests.Response.__bool__` is `self.ok`: true exactly for status codes
below 400. -/
def HttpResponse.ok (r : HttpResponse) : Bool :=
  decide (r.status < 400)

/-- The configuration file as seen by `open` + `yaml.safe_load`. -/
inductive ConfigFile where
  | missing : ConfigFile
  | invalidYaml : ConfigFile
  | yamlContent : Json → ConfigFile

/-- The environment of one run: configuration file content and the remote
API's (deterministic) behaviour.  Detail responses are keyed by the
character identifier interpolated into the detail URL. -/
structure World where
  cfgPath : String
  configFile : ConfigFile
  authResult : ReqResult
  listResult : ReqResult
  detailResult : Json → ReqResult

/-- An issued (attempted) HTTP request: method, URL, headers. -/
structure Request where
  method : String
  url : String
  headers : List (String × String)
deriving Repr, DecidableEq

/-- Log levels used by the script. -/
inductive LogLevel where
  | info : LogLevel
  | warning : LogLevel
  | error : LogLevel
deriving Repr, DecidableEq

/-- One log message per `logger.*`/`logging.*` call site of the script,
carrying exactly the values the source interpolates into its f-string. -/
inductive LogMsg where
  | configNotFound : String → LogMsg
  | authenticating : LogMsg
  | authFailed : Nat → LogMsg
  | statusCode : String → LogMsg
  | responseContent : String → LogMsg
  | noAccessToken : LogMsg
  | jsonDecodeFailed : LogMsg
  | fetchingCharacterIds : LogMsg
  | fetchIdsFailed : Nat → LogMsg
  | unexpectedFormat : LogMsg
  | noCharactersFound : LogMsg
  | characterIdNotFound : LogMsg
  | fetchingDetails : Json → LogMsg
  | detailFetchFailed : Json → Nat → LogMsg
  | detailDecodeFailed : Json → LogMsg
  | noDataToWrite : LogMsg
  | dataWritten : String → LogMsg
  | csvWriteFailed : LogMsg
deriving Repr, DecidableEq

/-- A log entry: level plus message. -/
structure LogEntry where
  level : LogLevel
  msg : LogMsg
deriving Repr, DecidableEq

/-- The flattened table written by `DataFrame.to_csv`: header plus rows of
cells; a `none` cell is pandas `NaN`, rendered as an empty CSV field. -/
structure Csv where
  header : List String
  rows : List (List (Option Json))
deriving Repr, DecidableEq

/-- Observable effects of a run. `exporterCalled` records whether
`write_to_csv_with_pandas` was invoked; `written` is the produced file
content (`none`: no output file was created or touched). -/
structure Effects where
  log : List LogEntry
  requests : List Request
  exporterCalled : Bool
  written : Option Csv
deriving Repr, DecidableEq

/-- The five mandatory configuration keys, read by subscription
(`config["auth_url"]`, ...).  A non-dict configuration raises `TypeError`
at subscription; a missing key raises `KeyError`. -/
structure Config where
  auth_url : Json
  login_data : Json
  characters_url : Json
  character_details_url : Json
  project_id : Json

/-- `config[key]` on the loaded YAML value: `KeyError` when the key is
absent, `TypeError` when the value is not a dict. -/
def getItem (v : Json) (k : String) : Except PyError Json :=
  match v with
  | .obj fs =>
      match fs.lookup k with
      | some x => Except.ok x
      | none => Except.error PyError.keyError
  | _ => Except.error PyError.typeError

/-- Lines 27–31 of the source: extraction of the five configuration values. -/
def readConfig (v : Json) : Except PyError Config := do
  let a ← getItem v "auth_url"
  let l ← getItem v "login_data"
  let cu ← getItem v "characters_url"
  let du ← getItem v "character_details_url"
  let p ← getItem v "project_id"
  Except.ok ⟨a, l, cu, du, p⟩

/-- The scanner behind `str.format`: processes the template characters with
an optional in-progress field name (`none` = literal text, `some buf` =
inside a field, `buf` holding the name reversed).  Doubled braces escape a
literal brace; a field name is looked up among the keyword arguments and
replaced by `str()` of the value; an unknown name raises `KeyError`, an
empty field raises `IndexError` (positional field with no positional
arguments), and stray or unclosed braces raise `ValueError`.  Format
specifications (`:` suffixes) are not modelled — this program's templates
use plain named placeholders. -/
def formatLoop (args : List (String × Json)) :
    List Char → Option (List Char) → Except PyError (List Char)
  | [], none => Except.ok []
  | [], some _ => Except.error PyError.valueError
  | '\x7b' :: '\x7b' :: rest, none =>
      match formatLoop args rest none with
      | Except.ok cs => Except.ok ('\x7b' :: cs)
      | Except.error e => Except.error e
  | '\x7d' :: '\x7d' :: rest, none =>
      match formatLoop args rest none with
      | Except.ok cs => Except.ok ('\x7d' :: cs)
      | Except.error e => Except.error e
  | '\x7b' :: rest, none => formatLoop args rest (some [])
  | '\x7d' :: _, none => Except.error PyError.valueError
  | c :: rest, none =>
      match formatLoop args rest none with
      | Except.ok cs => Except.ok (c :: cs)
      | Except.error e => Except.error e
  | '\x7d' :: rest, some buf =>
      if buf.isEmpty then Except.error PyError.indexError
      else
        match args.lookup (String.mk buf.reverse) with
        | some v =>
            match formatLoop args rest none with
            | Except.ok cs => Except.ok ((pyStr v).toList ++ cs)
            | Except.error e => Except.error e
        | none => Except.error PyError.keyError
  | '\x7b' :: _, some _ => Except.error PyError.valueError
  | c :: rest, some buf => formatLoop args rest (some (c :: buf))

/-- `template.format(**kwargs)`: a non-string receiver has no `format`
attribute and raises `AttributeError`; a string template is scanned by
`formatLoop`. -/
def pyFormat (tmpl : Json) (args : List (String × Json)) :
    Except PyError String :=
  match tmpl with
  | Json.str s =>
      match formatLoop args s.toList none with
      | Except.ok cs => Except.ok (String.mk cs)
      | Except.error e => Except.error e
  | _ => Except.error PyError.attributeError

/-- Line 66: `characters_url.format(projectId=project_id)`; the error, when
one arises, is raised before any request is issued and is not caught. -/
def listUrl (tmpl pid : Json) : Except PyError String :=
  pyFormat tmpl [("projectId", pid)]

/-- Line 96: `character_details_url.format(projectId=..., characterId=...)`;
likewise raised before the detail request and not caught. -/
def detailUrl (tmpl pid cid : Json) : Except PyError String :=
  pyFormat tmpl [("projectId", pid), ("characterId", cid)]

/-- Result of the detail-fetch loop (source lines 84–110): log entries and
requests produced by the loop, the `all_character_data` accumulator, and an
uncaught exception when the loop aborts the whole run. -/
structure LoopOut where
  log : List LogEntry
  requests : List Request
  collected : List Json
  err : Option PyError
deriving Repr, DecidableEq

/-- Prepend one item's contribution to the result of processing the rest. -/
def LoopOut.prepend (lg : List LogEntry) (rs : List Request) (ds : List Json)
    (rest : LoopOut) : LoopOut :=
  ⟨lg ++ rest.log, rs ++ rest.requests, ds ++ rest.collected, rest.err⟩

/-- The per-character detail-fetch loop, source lines 87–110.  For each
summary: `character.get("characterId")` (an `AttributeError` escapes when
the element is not a dict), a falsy/absent id is logged as a warning and
skipped; otherwise the detail URL is formatted (a format error escapes and
aborts the run) and a GET is issued; an `HTTPError` (status 400–599) is
logged and the item skipped; a body that fails JSON decoding is logged and
the item skipped; otherwise the decoded body is appended.  A transport-level
failure is not caught (`except` clauses name `HTTPError` and `ValueError`
only) and aborts the loop and the run. -/
def fetchDetails (detail : Json → ReqResult) (hdrs : List (String × String))
    (durl pid : Json) : List Json → LoopOut
  | [] => ⟨[], [], [], none⟩
  | ch :: rest =>
    match ch with
    | Json.obj fs =>
      match fs.lookup "characterId" with
      | none =>
          LoopOut.prepend [⟨LogLevel.warning, LogMsg.characterIdNotFound⟩] [] []
            (fetchDetails detail hdrs durl pid rest)
      | some cid =>
        if cid.truthy then
          let fetching : LogEntry := ⟨LogLevel.info, LogMsg.fetchingDetails cid⟩
          match detailUrl durl pid cid with
          | Except.error e => ⟨[fetching], [], [], some e⟩
          | Except.ok u =>
            let req : Request := ⟨"GET", u, hdrs⟩
            match detail cid with
            | ReqResult.transportError =>
                ⟨[fetching], [req], [], some PyError.transportError⟩
            | ReqResult.response r =>
              if raiseForStatus r.status then
                LoopOut.prepend
                  [fetching, ⟨LogLevel.error, LogMsg.detailFetchFailed cid r.status⟩,
                   ⟨LogLevel.error, LogMsg.responseContent r.text⟩] [req] []
                  (fetchDetails detail hdrs durl pid rest)
              else
                match r.jsonBody with
                | some d =>
                    LoopOut.prepend [fetching] [req] [d]
                      (fetchDetails detail hdrs durl pid rest)
                | none =>
                    LoopOut.prepend
                      [fetching, ⟨LogLevel.error, LogMsg.detailDecodeFailed cid⟩] [req] []
                      (fetchDetails detail hdrs durl pid rest)
        else
          LoopOut.prepend [⟨LogLevel.warning, LogMsg.characterIdNotFound⟩] [] []
            (fetchDetails detail hdrs durl pid rest)
    | _ => ⟨[], [], [], some PyError.attributeError⟩

mutual
/-- `pandas.json_normalize` flattening of one value under a dotted key:
nested dicts are recursed into with `key.subkey` naming; every other value
is kept whole. -/
def flattenVal (key : String) : Json → List (String × Json)
  | Json.obj fs => flattenFields (key ++ ".") fs
  | v => [(key, v)]

/-- Flattening of a dict's fields under a common dotted key prefix. -/
def flattenFields (pre : String) : List (String × Json) → List (String × Json)
  | [] => []
  | (k, v) :: rest => flattenVal (pre ++ k) v ++ flattenFields pre rest
end

/-- Flattening of one record (column name / value pairs of its row). -/
def flattenRecord : Json → List (String × Json)
  | Json.obj fs => flattenFields "" fs
  | _ => []

/-- Append the keys `ks` to the column list `acc`, keeping first-appearance
order and dropping duplicates. -/
def addKeys (acc : List String) (ks : List String) : List String :=
  ks.foldl (fun a k => if a.contains k then a else a ++ [k]) acc

/-- Column set of `pandas.json_normalize`: union of the flattened keys of
all records, in order of first appearance. -/
def normalizeColumns (flats : List (List (String × Json))) : List String :=
  flats.foldl (fun a f => addKeys a (f.map Prod.fst)) []

/-- `pandas.json_normalize(data)` on a list of records: flatten each record,
take the union of columns, and align each row to the columns (`none` = NaN
for a key the record lacks).  A non-dict record raises (caught by the
caller's `except Exception`). -/
def json_normalize (records : List Json) : Except PyError Csv :=
  if records.all Json.isObj then
    let flats := records.map flattenRecord
    let cols := normalizeColumns flats
    Except.ok ⟨cols, flats.map (fun f => cols.map (fun c => f.lookup c))⟩
  else Except.error PyError.attributeError

/-- Source lines 119–132: `json_normalize` + `to_csv` inside
`try ... except Exception`; any failure is logged and swallowed, success is
logged.  Returns the log entries and the written file content. -/
def write_to_csv_with_pandas (data : List Json) (output_file : String) :
    List LogEntry × Option Csv :=
  match json_normalize data with
  | Except.ok csv => ([⟨LogLevel.info, LogMsg.dataWritten output_file⟩], some csv)
  | Except.error _ => ([⟨LogLevel.error, LogMsg.csvWriteFailed⟩], none)

/-- The whole run, source lines 7–116, against a `World`.  Returns the
observable effects together with `some e` when a Python exception escapes
`fetch_character_data` (the script catches `FileNotFoundError` on the config
file, `HTTPError` after each request, `ValueError` on the auth and detail
JSON bodies, and any `Exception` inside the exporter; everything else
propagates). -/
def fetch_character_data (w : World) (output_file : String) :
    Effects × Option PyError :=
  match w.configFile with
  | ConfigFile.missing =>
      (⟨[⟨LogLevel.error, LogMsg.configNotFound w.cfgPath⟩], [], false, none⟩, none)
  | ConfigFile.invalidYaml =>
      (⟨[], [], false, none⟩, some PyError.yamlError)
  | ConfigFile.yamlContent v =>
    match readConfig v with
    | Except.error e => (⟨[], [], false, none⟩, some e)
    | Except.ok c =>
      let authReq : Request :=
        ⟨"POST", pyStr c.auth_url,
         [("Content-Type", "application/x-www-form-urlencoded")]⟩
      let lg0 : List LogEntry := [⟨LogLevel.info, LogMsg.authenticating⟩]
      match w.authResult with
      | ReqResult.transportError =>
          (⟨lg0, [authReq], false, none⟩, some PyError.transportError)
      | ReqResult.response ar =>
        if raiseForStatus ar.status then
          (⟨lg0 ++ [⟨LogLevel.error, LogMsg.authFailed ar.status⟩,
                    ⟨LogLevel.error, LogMsg.statusCode
                      (if ar.ok then toString ar.status else "No response")⟩,
                    ⟨LogLevel.error, LogMsg.responseContent
                      (if ar.ok then ar.text else "No response")⟩],
            [authReq], false, none⟩, none)
        else
          match ar.jsonBody with
          | none =>
              (⟨lg0 ++ [⟨LogLevel.error, LogMsg.jsonDecodeFailed⟩,
                        ⟨LogLevel.error, LogMsg.responseContent ar.text⟩],
                [authReq], false, none⟩, none)
          | some j =>
            match j with
            | Json.obj fs =>
              let tokenMissing : Effects × Option PyError :=
                (⟨lg0 ++ [⟨LogLevel.error, LogMsg.noAccessToken⟩,
                          ⟨LogLevel.error, LogMsg.responseContent ar.text⟩],
                  [authReq], false, none⟩, none)
              (match fs.lookup "access_token" with
               | none => tokenMissing
               | some t =>
                 if t.truthy then
                   let hdrs : List (String × String) :=
                     [("Authorization", "Bearer " ++ pyStr t)]
                   let lg1 := lg0 ++ [⟨LogLevel.info, LogMsg.fetchingCharacterIds⟩]
                   match listUrl c.characters_url c.project_id with
                   | Except.error e => (⟨lg1, [authReq], false, none⟩, some e)
                   | Except.ok lu =>
                   let listReq : Request := ⟨"GET", lu, hdrs⟩
                   match w.listResult with
                   | ReqResult.transportError =>
                       (⟨lg1, [authReq, listReq], false, none⟩,
                        some PyError.transportError)
                   | ReqResult.response lr =>
                     if raiseForStatus lr.status then
                       (⟨lg1 ++ [⟨LogLevel.error, LogMsg.fetchIdsFailed lr.status⟩,
                                 ⟨LogLevel.error, LogMsg.responseContent lr.text⟩],
                         [authReq, listReq], false, none⟩, none)
                     else
                       match lr.jsonBody with
                       | none =>
                           (⟨lg1, [authReq, listReq], false, none⟩,
                            some PyError.valueError)
                       | some lv =>
                         match lv with
                         | Json.arr chars =>
                           if chars.isEmpty then
                             (⟨lg1 ++ [⟨LogLevel.info, LogMsg.noCharactersFound⟩],
                               [authReq, listReq], false, none⟩, none)
                           else
                             let lo := fetchDetails w.detailResult hdrs
                               c.character_details_url c.project_id chars
                             let lg2 := lg1 ++ lo.log
                             let reqs := [authReq, listReq] ++ lo.requests
                             match lo.err with
                             | some e => (⟨lg2, reqs, false, none⟩, some e)
                             | none =>
                               if lo.collected.isEmpty then
                                 (⟨lg2 ++ [⟨LogLevel.info, LogMsg.noDataToWrite⟩],
                                   reqs, false, none⟩, none)
                               else
                                 let wr := write_to_csv_with_pandas
                                   lo.collected output_file
                                 (⟨lg2 ++ wr.1, reqs, true, wr.2⟩, none)
                         | _ =>
                           (⟨lg1 ++ [⟨LogLevel.error, LogMsg.unexpectedFormat⟩],
                             [authReq, listReq], false, none⟩, none)
                 else tokenMissing)
            | _ => (⟨lg0, [authReq], false, none⟩, some PyError.attributeError)

/-- Whether a value is a Python list. -/
def Json.isArr : Json → Bool
  | .arr _ => true
  | _ => false

/-- Specification of one loop iteration's contribution to
`all_character_data`: `some d` exactly when the summary is a dict with a
truthy `characterId`, the detail request yields a response whose status does
not raise, and the body decodes as JSON `d`. -/
def detailSuccess (d : Json → ReqResult) : Json → Option Json
  | Json.obj fs =>
    match fs.lookup "characterId" with
    | none => none
    | some cid =>
      if cid.truthy then
        match d cid with
        | ReqResult.transportError => none
        | ReqResult.response r =>
          if raiseForStatus r.status then none else r.jsonBody
      else none
  | _ => none

/-- Every request issued by the detail loop carries exactly the headers the
loop was given. -/
theorem fetchDetails_headers (d : Json → ReqResult) (hdrs : List (String × String))
    (durl pid : Json) (chars : List Json) :
    ∀ req ∈ (fetchDetails d hdrs durl pid chars).requests, req.headers = hdrs := by
  induction chars with
  | nil => intro req h; simp [fetchDetails] at h
  | cons ch rest ih =>
    intro req hreq
    unfold fetchDetails at hreq
    repeat' split at hreq
    all_goals
      simp only [LoopOut.prepend, List.mem_append, List.mem_cons,
        List.not_mem_nil, List.nil_append, List.append_nil, or_false,
        false_or] at hreq
    all_goals
      first
      | exact ih req hreq
      | (rcases hreq with rfl | hreq
         · rfl
         · exact ih req hreq)
      | (rcases hreq with rfl
         rfl)

/-- When every summary is a dict and no relevant detail request fails at
transport level, the loop runs to completion and collects exactly the
successful records, in input order. -/
theorem fetchDetails_completes (d : Json → ReqResult) (hdrs : List (String × String))
    (durl pid : Json) (chars : List Json)
    (hobj : ∀ ch ∈ chars, ch.isObj = true)
    (htr : ∀ ch ∈ chars, ∀ cid, Json.get ch "characterId" = some cid →
        cid.truthy = true → d cid ≠ ReqResult.transportError)
    (hurl : ∀ ch ∈ chars, ∀ cid, Json.get ch "characterId" = some cid →
        cid.truthy = true → ∃ u, detailUrl durl pid cid = Except.ok u) :
    (fetchDetails d hdrs durl pid chars).err = none ∧
    (fetchDetails d hdrs durl pid chars).collected =
      chars.filterMap (detailSuccess d) := by
  induction chars with
  | nil => exact ⟨rfl, rfl⟩
  | cons ch rest ih =>
    have hobjh := hobj ch (List.mem_cons_self ch rest)
    have ihr := ih (fun c hc => hobj c (List.mem_cons_of_mem ch hc))
      (fun c hc => htr c (List.mem_cons_of_mem ch hc))
      (fun c hc => hurl c (List.mem_cons_of_mem ch hc))
    cases ch with
    | obj fs =>
      cases hcid : fs.lookup "characterId" with
      | none =>
        simp only [fetchDetails, hcid, LoopOut.prepend, detailSuccess,
          List.filterMap_cons]
        exact ⟨ihr.1, by simpa using ihr.2⟩
      | some cid =>
        by_cases ht : cid.truthy = true
        · obtain ⟨u, hu⟩ := hurl (Json.obj fs) (List.mem_cons_self _ _) cid
            (by simpa [Json.get] using hcid) ht
          cases hd : d cid with
          | transportError =>
            exact absurd hd (htr (Json.obj fs) (List.mem_cons_self _ _) cid
              (by simpa [Json.get] using hcid) ht)
          | response r =>
            by_cases hs : raiseForStatus r.status = true
            · simp only [fetchDetails, hcid, ht, hu, hd, hs, if_true,
                LoopOut.prepend, detailSuccess, List.filterMap_cons]
              exact ⟨ihr.1, by simpa [hs] using ihr.2⟩
            · cases hb : r.jsonBody with
              | none =>
                simp only [fetchDetails, hcid, ht, hu, hd, LoopOut.prepend,
                  detailSuccess, List.filterMap_cons]
                simp only [Bool.not_eq_true] at hs
                simp [hs, hb, ihr.1, ihr.2]
              | some d0 =>
                simp only [fetchDetails, hcid, ht, hu, hd, LoopOut.prepend,
                  detailSuccess, List.filterMap_cons]
                simp only [Bool.not_eq_true] at hs
                simp [hs, hb, ihr.1, ihr.2]
        · simp only [Bool.not_eq_true] at ht
          simp only [fetchDetails, hcid, ht, LoopOut.prepend, detailSuccess,
            List.filterMap_cons]
          simp [ihr.1, ihr.2]
    | null => simp [Json.isObj] at hobjh
    | bool b => simp [Json.isObj] at hobjh
    | num n => simp [Json.isObj] at hobjh
    | str s => simp [Json.isObj] at hobjh
    | arr xs => simp [Json.isObj] at hobjh

/-- One loop iteration prepends its own log entries to the log of the rest,
and those entries include the appropriate failure message for each skip
path. -/
theorem fetchDetails_step (d : Json → ReqResult) (hdrs : List (String × String))
    (durl pid : Json) (ch : Json) (rest : List Json)
    (hobj : ch.isObj = true)
    (htr : ∀ cid, Json.get ch "characterId" = some cid → cid.truthy = true →
        d cid ≠ ReqResult.transportError)
    (hurl : ∀ cid, Json.get ch "characterId" = some cid → cid.truthy = true →
        ∃ u, detailUrl durl pid cid = Except.ok u) :
    ∃ H, (fetchDetails d hdrs durl pid (ch :: rest)).log =
        H ++ (fetchDetails d hdrs durl pid rest).log ∧
      (Json.get ch "characterId" = none →
        (⟨LogLevel.warning, LogMsg.characterIdNotFound⟩ : LogEntry) ∈ H) ∧
      (∀ cid, Json.get ch "characterId" = some cid → cid.truthy = false →
        (⟨LogLevel.warning, LogMsg.characterIdNotFound⟩ : LogEntry) ∈ H) ∧
      (∀ cid r, Json.get ch "characterId" = some cid → cid.truthy = true →
        d cid = ReqResult.response r → raiseForStatus r.status = true →
        (⟨LogLevel.error, LogMsg.detailFetchFailed cid r.status⟩ : LogEntry) ∈ H) ∧
      (∀ cid r, Json.get ch "characterId" = some cid → cid.truthy = true →
        d cid = ReqResult.response r → raiseForStatus r.status = false →
        r.jsonBody = none →
        (⟨LogLevel.error, LogMsg.detailDecodeFailed cid⟩ : LogEntry) ∈ H) := by
  cases ch with
  | obj fs =>
    cases hcid : fs.lookup "characterId" with
    | none =>
      refine ⟨[⟨LogLevel.warning, LogMsg.characterIdNotFound⟩], ?_, ?_, ?_, ?_, ?_⟩
      · simp [fetchDetails, hcid, LoopOut.prepend]
      · intro _; simp
      · intro cid hg; simp [Json.get, hcid] at hg
      · intro cid r hg; simp [Json.get, hcid] at hg
      · intro cid r hg; simp [Json.get, hcid] at hg
    | some cid0 =>
      by_cases ht : cid0.truthy = true
      · obtain ⟨u, hu⟩ := hurl cid0 (by simp [Json.get, hcid]) ht
        cases hd : d cid0 with
        | transportError =>
          exact absurd hd (htr cid0 (by simp [Json.get, hcid]) ht)
        | response r =>
          by_cases hs : raiseForStatus r.status = true
          · refine ⟨[⟨LogLevel.info, LogMsg.fetchingDetails cid0⟩,
              ⟨LogLevel.error, LogMsg.detailFetchFailed cid0 r.status⟩,
              ⟨LogLevel.error, LogMsg.responseContent r.text⟩], ?_, ?_, ?_, ?_, ?_⟩
            · simp [fetchDetails, hcid, ht, hu, hd, hs, LoopOut.prepend]
            · intro hg; simp [Json.get, hcid] at hg
            · intro cid hg; simp [Json.get, hcid] at hg; subst hg
              intro hf; rw [ht] at hf; cases hf
            · intro cid r2 hg; simp [Json.get, hcid] at hg; subst hg
              intro _ hd2 _; rw [hd] at hd2; injection hd2 with h; subst h; simp
            · intro cid r2 hg; simp [Json.get, hcid] at hg; subst hg
              intro _ hd2 hs2; rw [hd] at hd2; injection hd2 with h; subst h
              rw [hs] at hs2; cases hs2
          · simp only [Bool.not_eq_true] at hs
            cases hb : r.jsonBody with
            | none =>
              refine ⟨[⟨LogLevel.info, LogMsg.fetchingDetails cid0⟩,
                ⟨LogLevel.error, LogMsg.detailDecodeFailed cid0⟩], ?_, ?_, ?_, ?_, ?_⟩
              · simp [fetchDetails, hcid, ht, hu, hd, hs, hb, LoopOut.prepend]
              · intro hg; simp [Json.get, hcid] at hg
              · intro cid hg; simp [Json.get, hcid] at hg; subst hg
                intro hf; rw [ht] at hf; cases hf
              · intro cid r2 hg; simp [Json.get, hcid] at hg; subst hg
                intro _ hd2 hs2; rw [hd] at hd2; injection hd2 with h; subst h
                rw [hs] at hs2; cases hs2
              · intro cid r2 hg; simp [Json.get, hcid] at hg; subst hg
                intro _ hd2 _ _; rw [hd] at hd2; injection hd2 with h; subst h
                simp
            | some d0 =>
              refine ⟨[⟨LogLevel.info, LogMsg.fetchingDetails cid0⟩], ?_, ?_, ?_, ?_, ?_⟩
              · simp [fetchDetails, hcid, ht, hu, hd, hs, hb, LoopOut.prepend]
              · intro hg; simp [Json.get, hcid] at hg
              · intro cid hg; simp [Json.get, hcid] at hg; subst hg
                intro hf; rw [ht] at hf; cases hf
              · intro cid r2 hg; simp [Json.get, hcid] at hg; subst hg
                intro _ hd2 hs2; rw [hd] at hd2; injection hd2 with h; subst h
                rw [hs] at hs2; cases hs2
              · intro cid r2 hg; simp [Json.get, hcid] at hg; subst hg
                intro _ hd2 _ hb2; rw [hd] at hd2; injection hd2 with h; subst h
                rw [hb] at hb2; cases hb2
      · simp only [Bool.not_eq_true] at ht
        refine ⟨[⟨LogLevel.warning, LogMsg.characterIdNotFound⟩], ?_, ?_, ?_, ?_, ?_⟩
        · simp [fetchDetails, hcid, ht, LoopOut.prepend]
        · intro hg; simp [Json.get, hcid] at hg
        · intro cid hg _; simp
        · intro cid r2 hg; simp [Json.get, hcid] at hg; subst hg
          intro hf; rw [ht] at hf; cases hf
        · intro cid r2 hg; simp [Json.get, hcid] at hg; subst hg
          intro hf; rw [ht] at hf; cases hf
  | null => simp [Json.isObj] at hobj
  | bool b => simp [Json.isObj] at hobj
  | num n => simp [Json.isObj] at hobj
  | str s => simp [Json.isObj] at hobj
  | arr xs => simp [Json.isObj] at hobj

/-- Any item-level failure inside the loop leaves its log entry in the
loop's log. -/
theorem fetchDetails_mem_log (d : Json → ReqResult) (hdrs : List (String × String))
    (durl pid : Json) (chars : List Json)
    (hobj : ∀ ch ∈ chars, ch.isObj = true)
    (htr : ∀ ch ∈ chars, ∀ cid, Json.get ch "characterId" = some cid →
        cid.truthy = true → d cid ≠ ReqResult.transportError)
    (hurl : ∀ ch ∈ chars, ∀ cid, Json.get ch "characterId" = some cid →
        cid.truthy = true → ∃ u, detailUrl durl pid cid = Except.ok u)
    (entry : LogEntry) :
    ∀ ch ∈ chars,
      ((Json.get ch "characterId" = none ∧
          entry = ⟨LogLevel.warning, LogMsg.characterIdNotFound⟩) ∨
       (∃ cid, Json.get ch "characterId" = some cid ∧ cid.truthy = false ∧
          entry = ⟨LogLevel.warning, LogMsg.characterIdNotFound⟩) ∨
       (∃ cid r, Json.get ch "characterId" = some cid ∧ cid.truthy = true ∧
          d cid = ReqResult.response r ∧ raiseForStatus r.status = true ∧
          entry = ⟨LogLevel.error, LogMsg.detailFetchFailed cid r.status⟩) ∨
       (∃ cid r, Json.get ch "characterId" = some cid ∧ cid.truthy = true ∧
          d cid = ReqResult.response r ∧ raiseForStatus r.status = false ∧
          r.jsonBody = none ∧
          entry = ⟨LogLevel.error, LogMsg.detailDecodeFailed cid⟩)) →
      entry ∈ (fetchDetails d hdrs durl pid chars).log := by
  induction chars with
  | nil => simp
  | cons c0 rest ih =>
    intro ch hch hcond
    obtain ⟨H, hH, h1, h2, h3, h4⟩ := fetchDetails_step d hdrs durl pid c0 rest
      (hobj c0 (List.mem_cons_self c0 rest))
      (htr c0 (List.mem_cons_self c0 rest))
      (hurl c0 (List.mem_cons_self c0 rest))
    rcases List.mem_cons.mp hch with rfl | hch
    · rw [hH]
      apply List.mem_append_left
      rcases hcond with ⟨hg, rfl⟩ | ⟨cid, hg, ht, rfl⟩ |
        ⟨cid, r, hg, ht, hd, hs, rfl⟩ | ⟨cid, r, hg, ht, hd, hs, hb, rfl⟩
      · exact h1 hg
      · exact h2 cid hg ht
      · exact h3 cid r hg ht hd hs
      · exact h4 cid r hg ht hd hs hb
    · rw [hH]
      exact List.mem_append_right _
        (ih (fun c hc => hobj c (List.mem_cons_of_mem c0 hc))
          (fun c hc => htr c (List.mem_cons_of_mem c0 hc))
          (fun c hc => hurl c (List.mem_cons_of_mem c0 hc)) ch hch hcond)

/-- C1 (amended): For every list of character summaries, a per-item failure
during detail fetching (missing identifier, HTTP-error detail response with
status 400–599, or detail body failing JSON decoding) is logged and the
item is skipped, the loop continues over all remaining items, and the
collected result is the ordered sequence of successfully fetched detail
records in input order — where a response with any status outside 400–599
whose body decodes counts as a success.  (A non-2xx status below 400 is
collected, not skipped: see the counterexample.) -/
theorem detail_fetch_isolation (d : Json → ReqResult) (hdrs : List (String × String))
    (durl pid : Json) (chars : List Json)
    (hobj : ∀ ch ∈ chars, ch.isObj = true)
    (htr : ∀ ch ∈ chars, ∀ cid, Json.get ch "characterId" = some cid →
        cid.truthy = true → d cid ≠ ReqResult.transportError)
    (hurl : ∀ ch ∈ chars, ∀ cid, Json.get ch "characterId" = some cid →
        cid.truthy = true → ∃ u, detailUrl durl pid cid = Except.ok u) :
    (fetchDetails d hdrs durl pid chars).err = none ∧
    (fetchDetails d hdrs durl pid chars).collected =
      chars.filterMap (detailSuccess d) ∧
    (∀ ch ∈ chars, Json.get ch "characterId" = none →
      (⟨LogLevel.warning, LogMsg.characterIdNotFound⟩ : LogEntry) ∈
        (fetchDetails d hdrs durl pid chars).log) ∧
    (∀ ch ∈ chars, ∀ cid r, Json.get ch "characterId" = some cid →
      cid.truthy = true → d cid = ReqResult.response r →
      raiseForStatus r.status = true →
      (⟨LogLevel.error, LogMsg.detailFetchFailed cid r.status⟩ : LogEntry) ∈
        (fetchDetails d hdrs durl pid chars).log) ∧
    (∀ ch ∈ chars, ∀ cid r, Json.get ch "characterId" = some cid →
      cid.truthy = true → d cid = ReqResult.response r →
      raiseForStatus r.status = false → r.jsonBody = none →
      (⟨LogLevel.error, LogMsg.detailDecodeFailed cid⟩ : LogEntry) ∈
        (fetchDetails d hdrs durl pid chars).log) := by
  refine ⟨(fetchDetails_completes d hdrs durl pid chars hobj htr hurl).1,
          (fetchDetails_completes d hdrs durl pid chars hobj htr hurl).2, ?_, ?_, ?_⟩
  · intro ch hch hg
    exact fetchDetails_mem_log d hdrs durl pid chars hobj htr hurl _ ch hch
      (Or.inl ⟨hg, rfl⟩)
  · intro ch hch cid r hg ht hd hs
    exact fetchDetails_mem_log d hdrs durl pid chars hobj htr hurl _ ch hch
      (Or.inr (Or.inr (Or.inl ⟨cid, r, hg, ht, hd, hs, rfl⟩)))
  · intro ch hch cid r hg ht hd hs hb
    exact fetchDetails_mem_log d hdrs durl pid chars hobj htr hurl _ ch hch
      (Or.inr (Or.inr (Or.inr ⟨cid, r, hg, ht, hd, hs, hb, rfl⟩)))

/-- The three summaries of C1's concrete scenario. -/
def c1Chars : List Json :=
  [Json.obj [("characterId", Json.num 1)],
   Json.obj [("characterId", Json.num 2)],
   Json.obj [("characterId", Json.num 3)]]

/-- A detail endpoint that answers HTTP 500 for character 2 and a record for
every other character. -/
def c1Detail : Json → ReqResult
  | Json.num 2 => ReqResult.response ⟨500, "server error", none⟩
  | Json.num n => ReqResult.response
      ⟨200, "ok", some (Json.obj [("characterId", Json.num n), ("name", Json.str "c")])⟩
  | _ => ReqResult.transportError

/-- C1 witness: three summaries, the 2nd failing with HTTP 500; the loop
completes and collects exactly the records of characters 1 and 3, in
order. -/
theorem detail_fetch_isolation_witness :
    (∀ ch ∈ c1Chars, ch.isObj = true) ∧
    (∀ ch ∈ c1Chars, ∀ cid, Json.get ch "characterId" = some cid →
        cid.truthy = true → c1Detail cid ≠ ReqResult.transportError) ∧
    (∀ ch ∈ c1Chars, ∀ cid, Json.get ch "characterId" = some cid →
        cid.truthy = true →
        ∃ u, detailUrl (Json.str "D") (Json.num 7) cid = Except.ok u) ∧
    (fetchDetails c1Detail [] (Json.str "D") (Json.num 7) c1Chars).err = none ∧
    (fetchDetails c1Detail [] (Json.str "D") (Json.num 7) c1Chars).collected =
      [Json.obj [("characterId", Json.num 1), ("name", Json.str "c")],
       Json.obj [("characterId", Json.num 3), ("name", Json.str "c")]] := by
  have hobj : ∀ ch ∈ c1Chars, ch.isObj = true := by decide
  have htr : ∀ ch ∈ c1Chars, ∀ cid, Json.get ch "characterId" = some cid →
      cid.truthy = true → c1Detail cid ≠ ReqResult.transportError := by
    intro ch hch cid hg ht
    fin_cases hch <;>
      · simp only [Json.get, List.lookup] at hg
        split at hg <;> first
          | (injection hg with h; subst h; decide)
          | cases hg
  have hurl : ∀ ch ∈ c1Chars, ∀ cid, Json.get ch "characterId" = some cid →
      cid.truthy = true →
      ∃ u, detailUrl (Json.str "D") (Json.num 7) cid = Except.ok u := by
    intro ch hch cid hg ht
    exact ⟨"D", rfl⟩
  have hmain := detail_fetch_isolation c1Detail [] (Json.str "D") (Json.num 7)
    c1Chars hobj htr hurl
  exact ⟨hobj, htr, hurl, hmain.1, hmain.2.1.trans (by decide)⟩

/-- A detail endpoint that always answers 304 with a decodable body. -/
def c1RedirectDetail : Json → ReqResult :=
  fun _ => ReqResult.response ⟨304, "redirect", some (Json.str "cached")⟩

/-- C1 counterexample: a non-2xx detail response with status 304 is neither
logged nor skipped — its decoded body is collected, contradicting the
claim that any non-2xx detail response is logged and the item skipped. -/
theorem detail_fetch_isolation_counterexample :
    (fetchDetails c1RedirectDetail [] (Json.str "D") (Json.num 7)
        [Json.obj [("characterId", Json.num 1)]]).collected =
      [Json.str "cached"] ∧
    (fetchDetails c1RedirectDetail [] (Json.str "D") (Json.num 7)
        [Json.obj [("characterId", Json.num 1)]]).log =
      [⟨LogLevel.info, LogMsg.fetchingDetails (Json.num 1)⟩] ∧
    (⟨LogLevel.error, LogMsg.detailFetchFailed (Json.num 1) 304⟩ : LogEntry) ∉
      (fetchDetails c1RedirectDetail [] (Json.str "D") (Json.num 7)
        [Json.obj [("characterId", Json.num 1)]]).log :=
  ⟨rfl, rfl, by decide⟩

/-- C9: a summary whose `characterId` is present but falsy is handled
exactly like a summary without the field: one warning, no detail request,
nothing collected, and the loop continues with the rest. -/
theorem falsy_id_skipped_like_absent (d : Json → ReqResult)
    (hdrs : List (String × String)) (durl pid : Json)
    (fs1 fs2 : List (String × Json)) (v : Json) (rest : List Json)
    (h1 : fs1.lookup "characterId" = some v) (hv : v.truthy = false)
    (h2 : fs2.lookup "characterId" = none) :
    fetchDetails d hdrs durl pid (Json.obj fs1 :: rest) =
      LoopOut.prepend [⟨LogLevel.warning, LogMsg.characterIdNotFound⟩] [] []
        (fetchDetails d hdrs durl pid rest) ∧
    fetchDetails d hdrs durl pid (Json.obj fs1 :: rest) =
      fetchDetails d hdrs durl pid (Json.obj fs2 :: rest) := by
  constructor
  · simp [fetchDetails, h1, hv]
  · simp [fetchDetails, h1, h2, hv]

/-- C9 witness: `characterId: 0` is skipped with a warning, identically to a
summary with no `characterId` at all. -/
theorem falsy_id_skipped_like_absent_witness :
    ([(("characterId" : String), Json.num 0)].lookup "characterId" =
      some (Json.num 0)) ∧
    (Json.num 0).truthy = false ∧
    ([(("name" : String), Json.str "x")].lookup "characterId" = none) ∧
    fetchDetails (fun _ => ReqResult.transportError) [] (Json.str "D")
        (Json.num 7) [Json.obj [("characterId", Json.num 0)]] =
      LoopOut.prepend [⟨LogLevel.warning, LogMsg.characterIdNotFound⟩] [] []
        (fetchDetails (fun _ => ReqResult.transportError) [] (Json.str "D")
          (Json.num 7) []) ∧
    fetchDetails (fun _ => ReqResult.transportError) [] (Json.str "D")
        (Json.num 7) [Json.obj [("characterId", Json.num 0)]] =
      fetchDetails (fun _ => ReqResult.transportError) [] (Json.str "D")
        (Json.num 7) [Json.obj [("name", Json.str "x")]] := by
  have h := falsy_id_skipped_like_absent (fun _ => ReqResult.transportError)
    [] (Json.str "D") (Json.num 7) [("characterId", Json.num 0)]
    [("name", Json.str "x")] (Json.num 0) [] (by decide) (by decide) (by decide)
  exact ⟨by decide, by decide, by decide, h.1, h.2⟩

/-- C10: a detail response decoding as any JSON value whatsoever is appended
to the collected sequence; no object-shape validation happens before
export. -/
theorem any_json_shape_collected (d : Json → ReqResult)
    (hdrs : List (String × String)) (durl pid : Json)
    (fs : List (String × Json)) (cid : Json) (r : HttpResponse)
    (d0 : Json) (u : String) (rest : List Json)
    (hc : fs.lookup "characterId" = some cid) (ht : cid.truthy = true)
    (hu : detailUrl durl pid cid = Except.ok u)
    (hr : d cid = ReqResult.response r) (hs : raiseForStatus r.status = false)
    (hb : r.jsonBody = some d0) :
    (fetchDetails d hdrs durl pid (Json.obj fs :: rest)).collected =
      d0 :: (fetchDetails d hdrs durl pid rest).collected := by
  simp [fetchDetails, hc, ht, hu, hr, hs, hb, LoopOut.prepend]

/-- C10 witness: a detail body that is a JSON array (not an object) is
collected like any record. -/
theorem any_json_shape_collected_witness :
    ([(("characterId" : String), Json.num 1)].lookup "characterId" =
      some (Json.num 1)) ∧
    (Json.num 1).truthy = true ∧
    detailUrl (Json.str "D") (Json.num 7) (Json.num 1) = Except.ok "D" ∧
    (fun _ : Json => ReqResult.response
        ⟨200, "ok", some (Json.arr [Json.num 4, Json.null])⟩) (Json.num 1) =
      ReqResult.response ⟨200, "ok", some (Json.arr [Json.num 4, Json.null])⟩ ∧
    raiseForStatus 200 = false ∧
    (fetchDetails
        (fun _ => ReqResult.response
          ⟨200, "ok", some (Json.arr [Json.num 4, Json.null])⟩)
        [] (Json.str "D") (Json.num 7)
        [Json.obj [("characterId", Json.num 1)]]).collected =
      Json.arr [Json.num 4, Json.null] ::
        (fetchDetails
          (fun _ => ReqResult.response
            ⟨200, "ok", some (Json.arr [Json.num 4, Json.null])⟩)
          [] (Json.str "D") (Json.num 7) []).collected := by
  refine ⟨by decide, by decide, rfl, rfl, by decide, ?_⟩
  exact any_json_shape_collected _ [] (Json.str "D") (Json.num 7)
    [("characterId", Json.num 1)] (Json.num 1)
    ⟨200, "ok", some (Json.arr [Json.num 4, Json.null])⟩
    (Json.arr [Json.num 4, Json.null]) "D" [] (by decide) (by decide) rfl rfl
    (by decide) rfl

/-- C8: a missing configuration file is logged as an error and the run
returns without raising; no request is issued and no output file is
touched. -/
theorem config_not_found_clean_abort (w : World) (out : String)
    (h : w.configFile = ConfigFile.missing) :
    fetch_character_data w out =
      (⟨[⟨LogLevel.error, LogMsg.configNotFound w.cfgPath⟩], [], false, none⟩,
       none) := by
  simp [fetch_character_data, h]

/-- A world whose configuration file does not resolve. -/
def missingCfgWorld : World :=
  ⟨"parse_config.yaml", ConfigFile.missing, ReqResult.transportError,
   ReqResult.transportError, fun _ => ReqResult.transportError⟩

/-- C8 witness. -/
theorem config_not_found_clean_abort_witness :
    missingCfgWorld.configFile = ConfigFile.missing ∧
    fetch_character_data missingCfgWorld "output.csv" =
      (⟨[⟨LogLevel.error, LogMsg.configNotFound "parse_config.yaml"⟩], [],
        false, none⟩, none) :=
  ⟨rfl, config_not_found_clean_abort missingCfgWorld "output.csv" rfl⟩

/-- C5: a character-list body that decodes as JSON but is not a list is
logged as `UnexpectedFormat`; the run ends normally after exactly the auth
and list requests, with no output file. -/
theorem unexpected_format_aborts (w : World) (out : String) (v lv : Json)
    (c : Config) (ar lr : HttpResponse) (fs : List (String × Json)) (t : Json)
    (lu : String)
    (hcfg : w.configFile = ConfigFile.yamlContent v)
    (hrd : readConfig v = Except.ok c)
    (hauth : w.authResult = ReqResult.response ar)
    (hast : raiseForStatus ar.status = false)
    (hab : ar.jsonBody = some (Json.obj fs))
    (htok : fs.lookup "access_token" = some t)
    (htt : t.truthy = true)
    (hlu : listUrl c.characters_url c.project_id = Except.ok lu)
    (hlist : w.listResult = ReqResult.response lr)
    (hlst : raiseForStatus lr.status = false)
    (hlb : lr.jsonBody = some lv)
    (hna : lv.isArr = false) :
    fetch_character_data w out =
      (⟨[⟨LogLevel.info, LogMsg.authenticating⟩,
         ⟨LogLevel.info, LogMsg.fetchingCharacterIds⟩,
         ⟨LogLevel.error, LogMsg.unexpectedFormat⟩],
        [⟨"POST", pyStr c.auth_url,
          [("Content-Type", "application/x-www-form-urlencoded")]⟩,
         ⟨"GET", lu, [("Authorization", "Bearer " ++ pyStr t)]⟩],
        false, none⟩, none) := by
  cases lv with
  | arr xs => simp [Json.isArr] at hna
  | null =>
    simp [fetch_character_data, hcfg, hrd, hauth, hast, hab, htok, htt,
      hlu, hlist, hlst, hlb]
  | bool b =>
    simp [fetch_character_data, hcfg, hrd, hauth, hast, hab, htok, htt,
      hlu, hlist, hlst, hlb]
  | num n =>
    simp [fetch_character_data, hcfg, hrd, hauth, hast, hab, htok, htt,
      hlu, hlist, hlst, hlb]
  | str s =>
    simp [fetch_character_data, hcfg, hrd, hauth, hast, hab, htok, htt,
      hlu, hlist, hlst, hlb]
  | obj ofs =>
    simp [fetch_character_data, hcfg, hrd, hauth, hast, hab, htok, htt,
      hlu, hlist, hlst, hlb]

/-- A well-formed configuration value used by concrete worlds. -/
def cfgVal : Json :=
  Json.obj [("auth_url", Json.str "https://api/x/oauth/token"),
    ("login_data", Json.obj [("grant_type", Json.str "password")]),
    ("characters_url",
      Json.str "https://api/x/projects/\x7bprojectId\x7d/characters"),
    ("character_details_url",
      Json.str
        "https://api/x/projects/\x7bprojectId\x7d/characters/\x7bcharacterId\x7d"),
    ("project_id", Json.num 7)]

/-- The configuration record extracted from `cfgVal`. -/
def cfgRec : Config :=
  ⟨Json.str "https://api/x/oauth/token",
   Json.obj [("grant_type", Json.str "password")],
   Json.str "https://api/x/projects/\x7bprojectId\x7d/characters",
   Json.str
     "https://api/x/projects/\x7bprojectId\x7d/characters/\x7bcharacterId\x7d",
   Json.num 7⟩

/-- A successful auth response carrying token `T`. -/
def authOk : HttpResponse :=
  ⟨200, "tokenbody", some (Json.obj [("access_token", Json.str "T")])⟩

/-- A world whose list endpoint answers with a JSON object instead of an
array. -/
def objListWorld : World :=
  ⟨"parse_config.yaml", ConfigFile.yamlContent cfgVal,
   ReqResult.response authOk,
   ReqResult.response ⟨200, "objbody", some (Json.obj [("error", Json.null)])⟩,
   fun _ => ReqResult.transportError⟩

/-- C5 witness. -/
theorem unexpected_format_aborts_witness :
    objListWorld.configFile = ConfigFile.yamlContent cfgVal ∧
    readConfig cfgVal = Except.ok cfgRec ∧
    objListWorld.authResult = ReqResult.response authOk ∧
    raiseForStatus authOk.status = false ∧
    authOk.jsonBody = some (Json.obj [("access_token", Json.str "T")]) ∧
    ([(("access_token" : String), Json.str "T")].lookup "access_token" =
      some (Json.str "T")) ∧
    (Json.str "T").truthy = true ∧
    listUrl cfgRec.characters_url cfgRec.project_id =
      Except.ok "https://api/x/projects/7/characters" ∧
    (Json.obj [("error", Json.null)]).isArr = false ∧
    fetch_character_data objListWorld "output.csv" =
      (⟨[⟨LogLevel.info, LogMsg.authenticating⟩,
         ⟨LogLevel.info, LogMsg.fetchingCharacterIds⟩,
         ⟨LogLevel.error, LogMsg.unexpectedFormat⟩],
        [⟨"POST", pyStr cfgRec.auth_url,
          [("Content-Type", "application/x-www-form-urlencoded")]⟩,
         ⟨"GET", "https://api/x/projects/7/characters",
          [("Authorization", "Bearer " ++ pyStr (Json.str "T"))]⟩],
        false, none⟩, none) := by
  refine ⟨rfl, rfl, rfl, by decide, rfl, by decide, by decide, rfl, by decide, ?_⟩
  exact unexpected_format_aborts objListWorld "output.csv" cfgVal
    (Json.obj [("error", Json.null)]) cfgRec authOk
    ⟨200, "objbody", some (Json.obj [("error", Json.null)])⟩
    [("access_token", Json.str "T")] (Json.str "T")
    "https://api/x/projects/7/characters"
    rfl rfl rfl (by decide) rfl (by decide) (by decide) rfl rfl
    (by decide) rfl (by decide)

/-- C6: with an empty character list, or with zero successfully collected
detail records, the exporter is never invoked and no output file is created;
the condition is logged informationally and the run ends normally. -/
theorem no_records_no_output (w : World) (out : String) (v : Json)
    (c : Config) (ar lr : HttpResponse) (fs : List (String × Json)) (t : Json)
    (lu : String)
    (hcfg : w.configFile = ConfigFile.yamlContent v)
    (hrd : readConfig v = Except.ok c)
    (hauth : w.authResult = ReqResult.response ar)
    (hast : raiseForStatus ar.status = false)
    (hab : ar.jsonBody = some (Json.obj fs))
    (htok : fs.lookup "access_token" = some t)
    (htt : t.truthy = true)
    (hlu : listUrl c.characters_url c.project_id = Except.ok lu)
    (hlist : w.listResult = ReqResult.response lr)
    (hlst : raiseForStatus lr.status = false) :
    (lr.jsonBody = some (Json.arr []) →
      fetch_character_data w out =
        (⟨[⟨LogLevel.info, LogMsg.authenticating⟩,
           ⟨LogLevel.info, LogMsg.fetchingCharacterIds⟩,
           ⟨LogLevel.info, LogMsg.noCharactersFound⟩],
          [⟨"POST", pyStr c.auth_url,
            [("Content-Type", "application/x-www-form-urlencoded")]⟩,
           ⟨"GET", lu, [("Authorization", "Bearer " ++ pyStr t)]⟩],
          false, none⟩, none)) ∧
    (∀ chars, lr.jsonBody = some (Json.arr chars) → chars ≠ [] →
      (fetchDetails w.detailResult
          [("Authorization", "Bearer " ++ pyStr t)]
          c.character_details_url c.project_id chars).err = none →
      (fetchDetails w.detailResult
          [("Authorization", "Bearer " ++ pyStr t)]
          c.character_details_url c.project_id chars).collected = [] →
      (fetch_character_data w out).1.exporterCalled = false ∧
      (fetch_character_data w out).1.written = none ∧
      (⟨LogLevel.info, LogMsg.noDataToWrite⟩ : LogEntry) ∈
        (fetch_character_data w out).1.log ∧
      (fetch_character_data w out).2 = none) := by
  constructor
  · intro hlb
    simp [fetch_character_data, hcfg, hrd, hauth, hast, hab, htok, htt,
      hlu, hlist, hlst, hlb]
  · intro chars hlb hne herr hcoll
    have hne2 : chars.isEmpty = false := by
      cases chars with
      | nil => exact absurd rfl hne
      | cons a l => rfl
    simp [fetch_character_data, hcfg, hrd, hauth, hast, hab, htok, htt,
      hlu, hlist, hlst, hlb, hne2, herr, hcoll]

/-- A world whose list endpoint answers with an empty JSON array. -/
def emptyListWorld : World :=
  ⟨"parse_config.yaml", ConfigFile.yamlContent cfgVal,
   ReqResult.response authOk,
   ReqResult.response ⟨200, "[]", some (Json.arr [])⟩,
   fun _ => ReqResult.transportError⟩

/-- A world whose single character summary has no id, so nothing is
collected. -/
def noneCollectedWorld : World :=
  ⟨"parse_config.yaml", ConfigFile.yamlContent cfgVal,
   ReqResult.response authOk,
   ReqResult.response
     ⟨200, "listbody", some (Json.arr [Json.obj [("name", Json.str "x")]])⟩,
   fun _ => ReqResult.transportError⟩

/-- C6 witness: the empty-list run produces no file and never calls the
exporter, and so does a run whose only summary is skipped. -/
theorem no_records_no_output_witness :
    (fetch_character_data emptyListWorld "output.csv" =
      (⟨[⟨LogLevel.info, LogMsg.authenticating⟩,
         ⟨LogLevel.info, LogMsg.fetchingCharacterIds⟩,
         ⟨LogLevel.info, LogMsg.noCharactersFound⟩],
        [⟨"POST", pyStr cfgRec.auth_url,
          [("Content-Type", "application/x-www-form-urlencoded")]⟩,
         ⟨"GET", "https://api/x/projects/7/characters",
          [("Authorization", "Bearer " ++ pyStr (Json.str "T"))]⟩],
        false, none⟩, none)) ∧
    ((fetch_character_data noneCollectedWorld "output.csv").1.exporterCalled
        = false ∧
     (fetch_character_data noneCollectedWorld "output.csv").1.written = none ∧
     (⟨LogLevel.info, LogMsg.noDataToWrite⟩ : LogEntry) ∈
       (fetch_character_data noneCollectedWorld "output.csv").1.log ∧
     (fetch_character_data noneCollectedWorld "output.csv").2 = none) := by
  constructor
  · exact (no_records_no_output emptyListWorld "output.csv" cfgVal cfgRec
      authOk ⟨200, "[]", some (Json.arr [])⟩
      [("access_token", Json.str "T")] (Json.str "T")
      "https://api/x/projects/7/characters"
      rfl rfl rfl (by decide) rfl (by decide) (by decide) rfl rfl
      (by decide)).1 rfl
  · exact (no_records_no_output noneCollectedWorld "output.csv" cfgVal cfgRec
      authOk ⟨200, "listbody", some (Json.arr [Json.obj [("name", Json.str "x")]])⟩
      [("access_token", Json.str "T")] (Json.str "T")
      "https://api/x/projects/7/characters"
      rfl rfl rfl (by decide) rfl (by decide) (by decide) rfl rfl
      (by decide)).2
      [Json.obj [("name", Json.str "x")]] rfl (by decide) rfl rfl

/-- C2: once authentication yields token `T`, the character-list request and
every character-detail request carry the header
`Authorization: Bearer T`; the only request without it is the auth POST that
precedes them. -/
theorem bearer_header_on_all_requests (w : World) (out : String) (v : Json)
    (c : Config) (ar : HttpResponse) (fs : List (String × Json)) (T : String)
    (hcfg : w.configFile = ConfigFile.yamlContent v)
    (hrd : readConfig v = Except.ok c)
    (hauth : w.authResult = ReqResult.response ar)
    (hast : raiseForStatus ar.status = false)
    (hab : ar.jsonBody = some (Json.obj fs))
    (htok : fs.lookup "access_token" = some (Json.str T))
    (htt : (Json.str T).truthy = true) :
    ∃ rest, (fetch_character_data w out).1.requests =
        (⟨"POST", pyStr c.auth_url,
          [("Content-Type", "application/x-www-form-urlencoded")]⟩ : Request)
          :: rest ∧
      ∀ req ∈ rest, req.headers = [("Authorization", "Bearer " ++ T)] := by
  simp only [fetch_character_data, hcfg, hrd, hauth, hast, hab, htok, htt,
    Bool.false_eq_true, if_false, if_true, ite_true, ite_false]
  rw [show pyStr (Json.str T) = T from rfl]
  repeat' split
  all_goals refine ⟨_, rfl, ?_⟩
  all_goals intro req hreq
  all_goals
    try simp only [List.append_eq, List.mem_cons, List.not_mem_nil, or_false,
      List.cons_append, List.nil_append] at hreq
  all_goals
    first
    | exact hreq.elim
    | (subst hreq; rfl)
    | exact hreq.elim (fun h => by subst h; rfl)
        (fun h => fetchDetails_headers _ _ _ _ _ req h)

/-- A fully successful world: two characters, both details found. -/
def happyWorld : World :=
  ⟨"parse_config.yaml", ConfigFile.yamlContent cfgVal,
   ReqResult.response authOk,
   ReqResult.response ⟨200, "listbody",
     some (Json.arr [Json.obj [("characterId", Json.num 1)],
                     Json.obj [("characterId", Json.num 2)]])⟩,
   fun cid => ReqResult.response
     ⟨200, "detailbody", some (Json.obj [("characterId", cid)])⟩⟩

/-- C2 witness: in a complete successful run, every request after the auth
POST carries `Authorization: Bearer T`. -/
theorem bearer_header_on_all_requests_witness :
    happyWorld.configFile = ConfigFile.yamlContent cfgVal ∧
    readConfig cfgVal = Except.ok cfgRec ∧
    happyWorld.authResult = ReqResult.response authOk ∧
    raiseForStatus authOk.status = false ∧
    authOk.jsonBody = some (Json.obj [("access_token", Json.str "T")]) ∧
    ([(("access_token" : String), Json.str "T")].lookup "access_token" =
      some (Json.str "T")) ∧
    (Json.str "T").truthy = true ∧
    (∃ rest, (fetch_character_data happyWorld "output.csv").1.requests =
        (⟨"POST", pyStr cfgRec.auth_url,
          [("Content-Type", "application/x-www-form-urlencoded")]⟩ : Request)
          :: rest ∧
      ∀ req ∈ rest, req.headers = [("Authorization", "Bearer " ++ "T")]) :=
  ⟨rfl, rfl, rfl, by decide, rfl, by decide, by decide,
   bearer_header_on_all_requests happyWorld "output.csv" cfgVal cfgRec authOk
     [("access_token", Json.str "T")] "T" rfl rfl rfl (by decide) rfl
     (by decide) (by decide)⟩

/-- A status that makes `raise_for_status` raise also makes the response
object falsy (`Response.__bool__` is `self.ok`). -/
theorem ok_eq_false_of_raise (r : HttpResponse)
    (h : raiseForStatus r.status = true) : r.ok = false := by
  simp only [raiseForStatus, Bool.and_eq_true, decide_eq_true_eq] at h
  simp only [HttpResponse.ok, decide_eq_false_iff_not]
  omega

/-- C3 (amended): each authentication error condition arising from an HTTP
response ends the run normally after the single auth request, with no retry
and no output file.  An HTTPError status (400–599) yields AuthFailed: the
HTTPError message (which carries the status) is logged, while the separate
status-code and response-content lines log the literal `No response`,
because the response object is falsy exactly for those statuses.  A body
failing JSON decoding yields MalformedResponse, logged with the body; a
JSON object body with an absent or falsy access-token field yields
TokenMissing, logged with the body.  (Transport-level failures are not
among the handled conditions: see the counterexample.) -/
theorem auth_error_conditions (w : World) (out : String) (v : Json)
    (c : Config) (ar : HttpResponse)
    (hcfg : w.configFile = ConfigFile.yamlContent v)
    (hrd : readConfig v = Except.ok c)
    (hauth : w.authResult = ReqResult.response ar) :
    (raiseForStatus ar.status = true →
      fetch_character_data w out =
        (⟨[⟨LogLevel.info, LogMsg.authenticating⟩,
           ⟨LogLevel.error, LogMsg.authFailed ar.status⟩,
           ⟨LogLevel.error, LogMsg.statusCode "No response"⟩,
           ⟨LogLevel.error, LogMsg.responseContent "No response"⟩],
          [⟨"POST", pyStr c.auth_url,
            [("Content-Type", "application/x-www-form-urlencoded")]⟩],
          false, none⟩, none)) ∧
    (raiseForStatus ar.status = false → ar.jsonBody = none →
      fetch_character_data w out =
        (⟨[⟨LogLevel.info, LogMsg.authenticating⟩,
           ⟨LogLevel.error, LogMsg.jsonDecodeFailed⟩,
           ⟨LogLevel.error, LogMsg.responseContent ar.text⟩],
          [⟨"POST", pyStr c.auth_url,
            [("Content-Type", "application/x-www-form-urlencoded")]⟩],
          false, none⟩, none)) ∧
    (∀ fs, raiseForStatus ar.status = false →
      ar.jsonBody = some (Json.obj fs) →
      (fs.lookup "access_token" = none ∨
       ∃ t, fs.lookup "access_token" = some t ∧ t.truthy = false) →
      fetch_character_data w out =
        (⟨[⟨LogLevel.info, LogMsg.authenticating⟩,
           ⟨LogLevel.error, LogMsg.noAccessToken⟩,
           ⟨LogLevel.error, LogMsg.responseContent ar.text⟩],
          [⟨"POST", pyStr c.auth_url,
            [("Content-Type", "application/x-www-form-urlencoded")]⟩],
          false, none⟩, none)) := by
  refine ⟨?_, ?_, ?_⟩
  · intro hst
    have hok := ok_eq_false_of_raise ar hst
    simp [fetch_character_data, hcfg, hrd, hauth, hst, hok]
  · intro hst hb
    simp [fetch_character_data, hcfg, hrd, hauth, hst, hb]
  · intro fs hst hb htok
    rcases htok with hnone | ⟨t, hsome, hf⟩
    · simp [fetch_character_data, hcfg, hrd, hauth, hst, hb, hnone]
    · simp [fetch_character_data, hcfg, hrd, hauth, hst, hb, hsome, hf]

/-- A world whose auth request fails at transport level. -/
def transportAuthWorld : World :=
  ⟨"parse_config.yaml", ConfigFile.yamlContent cfgVal,
   ReqResult.transportError, ReqResult.transportError,
   fun _ => ReqResult.transportError⟩

/-- A world whose auth response is a 304 with a non-JSON body. -/
def status304World : World :=
  ⟨"parse_config.yaml", ConfigFile.yamlContent cfgVal,
   ReqResult.response ⟨304, "notmodified", none⟩,
   ReqResult.transportError, fun _ => ReqResult.transportError⟩

/-- C3 counterexample: a transport-level auth failure does not yield a
logged AuthFailed termination — the exception escapes the run; and a
non-2xx status below 400 (here 304) is not treated as AuthFailed either —
the run continues into body decoding. -/
theorem auth_error_conditions_counterexample :
    (fetch_character_data transportAuthWorld "output.csv").2 =
      some PyError.transportError ∧
    (fetch_character_data status304World "output.csv").1.log =
      [⟨LogLevel.info, LogMsg.authenticating⟩,
       ⟨LogLevel.error, LogMsg.jsonDecodeFailed⟩,
       ⟨LogLevel.error, LogMsg.responseContent "notmodified"⟩] ∧
    (⟨LogLevel.error, LogMsg.authFailed 304⟩ : LogEntry) ∉
      (fetch_character_data status304World "output.csv").1.log :=
  ⟨rfl, rfl, by decide⟩

/-- C3 witness: the three handled conditions at concrete worlds — a 401
response, a 200 response with an undecodable body, and a 200 JSON object
body without a token. -/
theorem auth_error_conditions_witness :
    fetch_character_data
      ⟨"parse_config.yaml", ConfigFile.yamlContent cfgVal,
       ReqResult.response ⟨401, "denied", none⟩, ReqResult.transportError,
       fun _ => ReqResult.transportError⟩ "output.csv" =
      (⟨[⟨LogLevel.info, LogMsg.authenticating⟩,
         ⟨LogLevel.error, LogMsg.authFailed 401⟩,
         ⟨LogLevel.error, LogMsg.statusCode "No response"⟩,
         ⟨LogLevel.error, LogMsg.responseContent "No response"⟩],
        [⟨"POST", pyStr cfgRec.auth_url,
          [("Content-Type", "application/x-www-form-urlencoded")]⟩],
        false, none⟩, none) ∧
    fetch_character_data
      ⟨"parse_config.yaml", ConfigFile.yamlContent cfgVal,
       ReqResult.response ⟨200, "nonsense", none⟩, ReqResult.transportError,
       fun _ => ReqResult.transportError⟩ "output.csv" =
      (⟨[⟨LogLevel.info, LogMsg.authenticating⟩,
         ⟨LogLevel.error, LogMsg.jsonDecodeFailed⟩,
         ⟨LogLevel.error, LogMsg.responseContent "nonsense"⟩],
        [⟨"POST", pyStr cfgRec.auth_url,
          [("Content-Type", "application/x-www-form-urlencoded")]⟩],
        false, none⟩, none) ∧
    fetch_character_data
      ⟨"parse_config.yaml", ConfigFile.yamlContent cfgVal,
       ReqResult.response ⟨200, "emptytok", some (Json.obj [("access_token", Json.str "")])⟩,
       ReqResult.transportError, fun _ => ReqResult.transportError⟩ "output.csv" =
      (⟨[⟨LogLevel.info, LogMsg.authenticating⟩,
         ⟨LogLevel.error, LogMsg.noAccessToken⟩,
         ⟨LogLevel.error, LogMsg.responseContent "emptytok"⟩],
        [⟨"POST", pyStr cfgRec.auth_url,
          [("Content-Type", "application/x-www-form-urlencoded")]⟩],
        false, none⟩, none) := by
  refine ⟨?_, ?_, ?_⟩
  · exact (auth_error_conditions _ "output.csv" cfgVal cfgRec
      ⟨401, "denied", none⟩ rfl rfl rfl).1 (by decide)
  · exact (auth_error_conditions _ "output.csv" cfgVal cfgRec
      ⟨200, "nonsense", none⟩ rfl rfl rfl).2.1 (by decide) rfl
  · exact (auth_error_conditions _ "output.csv" cfgVal cfgRec
      ⟨200, "emptytok", some (Json.obj [("access_token", Json.str "")])⟩
      rfl rfl rfl).2.2 [("access_token", Json.str "")] (by decide) rfl
      (Or.inr ⟨Json.str "", by decide, by decide⟩)

/-- Conditions on the environment under which every failure falls inside
one of the script's exception handlers: the configuration file is either
absent or a mapping with the five required keys, both URL templates format
successfully (`str.format` raises no error), every request yields an HTTP
response (no transport failure), an auth JSON body is an object, the list
body decodes as JSON, and when it is an array all its elements are
objects. -/
def BenignWorld (w : World) : Prop :=
  w.configFile = ConfigFile.missing ∨
  (∃ v c, w.configFile = ConfigFile.yamlContent v ∧
    readConfig v = Except.ok c ∧
    (∃ u, listUrl c.characters_url c.project_id = Except.ok u) ∧
    (∀ cid, ∃ u,
      detailUrl c.character_details_url c.project_id cid = Except.ok u) ∧
    (∃ ar, w.authResult = ReqResult.response ar ∧
      (∀ j, ar.jsonBody = some j → j.isObj = true)) ∧
    (∃ lr, w.listResult = ReqResult.response lr ∧
      lr.jsonBody ≠ none ∧
      (∀ chars, lr.jsonBody = some (Json.arr chars) →
        ∀ ch ∈ chars, ch.isObj = true)) ∧
    (∀ cid, w.detailResult cid ≠ ReqResult.transportError))

/-- C4 (amended): under `BenignWorld` conditions the entry point returns
normally — no exception escapes and all failures are communicated through
the log only.  (Outside them an exception can escape: see the
counterexample.) -/
theorem entry_point_returns_normally (w : World) (out : String)
    (h : BenignWorld w) :
    (fetch_character_data w out).2 = none := by
  rcases h with hmiss |
    ⟨v, c, hcfg, hrd, ⟨lu, hlu⟩, hfmt, ⟨ar, hauth, har⟩,
     ⟨lr, hlist, hlb, hlarr⟩, hdet⟩
  · simp [fetch_character_data, hmiss]
  · by_cases hst : raiseForStatus ar.status = true
    · simp [fetch_character_data, hcfg, hrd, hauth, hst]
    · simp only [Bool.not_eq_true] at hst
      cases hab : ar.jsonBody with
      | none => simp [fetch_character_data, hcfg, hrd, hauth, hst, hab]
      | some j =>
        have hj := har j hab
        cases j with
        | obj fs =>
          cases htok : fs.lookup "access_token" with
          | none =>
            simp [fetch_character_data, hcfg, hrd, hauth, hst, hab, htok]
          | some t =>
            by_cases ht : t.truthy = true
            · by_cases hlst : raiseForStatus lr.status = true
              · simp [fetch_character_data, hcfg, hrd, hauth, hst, hab, htok,
                  ht, hlu, hlist, hlst]
              · simp only [Bool.not_eq_true] at hlst
                cases hlb2 : lr.jsonBody with
                | none => exact absurd hlb2 hlb
                | some lv =>
                  cases lv with
                  | arr chars =>
                    cases hche : chars.isEmpty with
                    | true =>
                      simp [fetch_character_data, hcfg, hrd, hauth, hst, hab,
                        htok, ht, hlu, hlist, hlst, hlb2, hche]
                    | false =>
                      have herr := (fetchDetails_completes w.detailResult
                        [("Authorization", "Bearer " ++ pyStr t)]
                        c.character_details_url c.project_id chars
                        (hlarr chars hlb2)
                        (fun ch _ cid _ _ => hdet cid)
                        (fun ch _ cid _ _ => hfmt cid)).1
                      simp only [fetch_character_data, hcfg, hrd, hauth, hst,
                        hab, htok, ht, hlu, hlist, hlst, hlb2, hche, herr,
                        Bool.false_eq_true, if_false, ite_false]
                      repeat' split
                      all_goals rfl
                  | null =>
                    simp [fetch_character_data, hcfg, hrd, hauth, hst, hab,
                      htok, ht, hlu, hlist, hlst, hlb2]
                  | bool b =>
                    simp [fetch_character_data, hcfg, hrd, hauth, hst, hab,
                      htok, ht, hlu, hlist, hlst, hlb2]
                  | num n =>
                    simp [fetch_character_data, hcfg, hrd, hauth, hst, hab,
                      htok, ht, hlu, hlist, hlst, hlb2]
                  | str s =>
                    simp [fetch_character_data, hcfg, hrd, hauth, hst, hab,
                      htok, ht, hlu, hlist, hlst, hlb2]
                  | obj ofs =>
                    simp [fetch_character_data, hcfg, hrd, hauth, hst, hab,
                      htok, ht, hlu, hlist, hlst, hlb2]
            · simp only [Bool.not_eq_true] at ht
              simp [fetch_character_data, hcfg, hrd, hauth, hst, hab, htok, ht]
        | null => simp [Json.isObj] at hj
        | bool b => simp [Json.isObj] at hj
        | num n => simp [Json.isObj] at hj
        | str s => simp [Json.isObj] at hj
        | arr xs => simp [Json.isObj] at hj

/-- A world whose configuration file is an empty YAML mapping. -/
def emptyYamlCfgWorld : World :=
  ⟨"parse_config.yaml", ConfigFile.yamlContent (Json.obj []),
   ReqResult.transportError, ReqResult.transportError,
   fun _ => ReqResult.transportError⟩

/-- C4 counterexample: with a configuration file lacking the required keys,
`config["auth_url"]` raises `KeyError` and the exception escapes the entry
point — the run does not return normally for every configuration file
content. -/
theorem entry_point_returns_normally_counterexample :
    (fetch_character_data emptyYamlCfgWorld "output.csv").2 =
      some PyError.keyError :=
  rfl

/-- C4 witness: a fully benign world runs to completion with no escaping
exception. -/
theorem entry_point_returns_normally_witness :
    BenignWorld happyWorld ∧
    (fetch_character_data happyWorld "output.csv").2 = none := by
  have hb : BenignWorld happyWorld := by
    refine Or.inr ⟨cfgVal, cfgRec, rfl, rfl, ⟨_, rfl⟩,
      fun cid => ⟨_, rfl⟩, ⟨authOk, rfl, ?_⟩,
      ⟨⟨200, "listbody",
        some (Json.arr [Json.obj [("characterId", Json.num 1)],
                        Json.obj [("characterId", Json.num 2)]])⟩,
        rfl, ?_, ?_⟩, ?_⟩
    · intro j hj
      injection hj with h
      subst h
      rfl
    · intro h
      cases h
    · intro chars hc ch hch
      injection hc with h
      injection h with h2
      subst h2
      fin_cases hch <;> rfl
    · intro cid h
      cases h
  exact ⟨hb, entry_point_returns_normally happyWorld "output.csv" hb⟩

/-- Membership in `addKeys`: the accumulated keys plus the new ones. -/
theorem mem_addKeys (c : String) (ks : List String) :
    ∀ acc, c ∈ addKeys acc ks ↔ c ∈ acc ∨ c ∈ ks := by
  induction ks with
  | nil => intro acc; simp [addKeys]
  | cons k rest ih =>
    intro acc
    simp only [addKeys, List.foldl_cons] at ih ⊢
    rw [ih]
    by_cases hc : acc.contains k
    · have hk : k ∈ acc := by simpa using hc
      rw [if_pos hc]
      simp only [List.mem_cons]
      constructor
      · rintro (h | h)
        · exact Or.inl h
        · exact Or.inr (Or.inr h)
      · rintro (h | h | h)
        · exact Or.inl h
        · rw [h]; exact Or.inl hk
        · exact Or.inr h
    · rw [if_neg hc]
      simp only [List.mem_append, List.mem_singleton, List.mem_cons]
      tauto

/-- `addKeys` preserves freedom from duplicates. -/
theorem addKeys_nodup (ks : List String) :
    ∀ acc, acc.Nodup → (addKeys acc ks).Nodup := by
  induction ks with
  | nil => intro acc h; simpa [addKeys] using h
  | cons k rest ih =>
    intro acc h
    simp only [addKeys, List.foldl_cons] at ih ⊢
    apply ih
    by_cases hc : acc.contains k
    · have hk : k ∈ acc := by simpa using hc
      simpa [hk] using h
    · have hk : k ∉ acc := by simpa using hc
      simp [hk, List.nodup_append, h]

/-- A name is a `json_normalize` column exactly when some record's
flattening mentions it. -/
theorem mem_normalizeColumns (c : String)
    (flats : List (List (String × Json))) :
    c ∈ normalizeColumns flats ↔ ∃ f ∈ flats, c ∈ f.map Prod.fst := by
  suffices h : ∀ acc,
      c ∈ List.foldl (fun a f => addKeys a (f.map Prod.fst)) acc flats ↔
        c ∈ acc ∨ ∃ f ∈ flats, c ∈ f.map Prod.fst by
    simpa [normalizeColumns] using h []
  induction flats with
  | nil => intro acc; simp
  | cons f rest ih =>
    intro acc
    simp only [List.foldl_cons]
    rw [ih, mem_addKeys]
    simp only [List.mem_cons]
    constructor
    · rintro (⟨h | h⟩ | ⟨g, hg, hc2⟩)
      · exact Or.inl h
      · exact Or.inr ⟨f, Or.inl rfl, h⟩
      · exact Or.inr ⟨g, Or.inr hg, hc2⟩
    · rintro (h | ⟨g, hg | hg, hc2⟩)
      · exact Or.inl (Or.inl h)
      · subst hg; exact Or.inl (Or.inr hc2)
      · exact Or.inr ⟨g, hg, hc2⟩

/-- The `json_normalize` column list has no duplicates. -/
theorem normalizeColumns_nodup (flats : List (List (String × Json))) :
    (normalizeColumns flats).Nodup := by
  suffices h : ∀ acc : List String, acc.Nodup →
      (List.foldl (fun a f => addKeys a (f.map Prod.fst)) acc flats).Nodup by
    exact h [] List.nodup_nil
  induction flats with
  | nil => intro acc h; exact h
  | cons f rest ih =>
    intro acc h
    simp only [List.foldl_cons]
    exact ih _ (addKeys_nodup _ acc h)

/-- `lookup` misses exactly the keys a flattened record does not mention. -/
theorem lookup_eq_none_iff (l : List (String × Json)) (k : String) :
    l.lookup k = none ↔ k ∉ l.map Prod.fst := by
  induction l with
  | nil => simp
  | cons p rest ih =>
    obtain ⟨k0, v0⟩ := p
    by_cases hk : k = k0
    · subst hk; simp [List.lookup]
    · have hb : (k == k0) = false := beq_eq_false_iff_ne.mpr hk
      simp only [List.lookup, hb, List.map_cons, List.mem_cons]
      rw [ih]
      simp [not_or, hk]

/-- C7: for a non-empty sequence of (arbitrarily nested) mapping records,
the exporter writes a table whose columns are the union of the dotted-path
flattened keys of all records, without duplicates; each row aligns its
record's flattened values to the columns, and a record lacking a key gets
an empty (`none`/NaN) cell in that column. -/
theorem exporter_flattens_and_unions (records : List Json) (out : String)
    (hne : records ≠ [])
    (hobj : records.all Json.isObj = true) :
    ∃ cols rows,
      write_to_csv_with_pandas records out =
        ([⟨LogLevel.info, LogMsg.dataWritten out⟩], some ⟨cols, rows⟩) ∧
      (∀ col, col ∈ cols ↔
        ∃ rec ∈ records, col ∈ (flattenRecord rec).map Prod.fst) ∧
      cols.Nodup ∧
      rows = records.map
        (fun rec => cols.map (fun col => (flattenRecord rec).lookup col)) ∧
      (∀ rec ∈ records, ∀ col,
        (flattenRecord rec).lookup col = none ↔
          col ∉ (flattenRecord rec).map Prod.fst) := by
  refine ⟨normalizeColumns (records.map flattenRecord),
    (records.map flattenRecord).map
      (fun f => (normalizeColumns (records.map flattenRecord)).map
        (fun col => f.lookup col)), ?_, ?_, ?_, ?_, ?_⟩
  · simp [write_to_csv_with_pandas, json_normalize, hobj]
  · intro col
    rw [mem_normalizeColumns]
    constructor
    · rintro ⟨f, hf, hc⟩
      obtain ⟨rec, hrec, rfl⟩ := List.mem_map.mp hf
      exact ⟨rec, hrec, hc⟩
    · rintro ⟨rec, hrec, hc⟩
      exact ⟨flattenRecord rec, List.mem_map_of_mem _ hrec, hc⟩
  · exact normalizeColumns_nodup _
  · rw [List.map_map]
    rfl
  · intro rec _ col
    exact lookup_eq_none_iff _ _

/-- The two heterogeneous records of C7's concrete scenario. -/
def c7Records : List Json :=
  [Json.obj [("id", Json.num 1), ("name", Json.str "A")],
   Json.obj [("id", Json.num 2), ("stats", Json.obj [("hp", Json.num 10)])]]

/-- C7 witness: the records `{"id":1,"name":"A"}` and
`{"id":2,"stats":{"hp":10}}` export with columns `id, name, stats.hp` and
empty cells where a record lacks a key. -/
theorem exporter_flattens_and_unions_witness :
    c7Records ≠ [] ∧
    c7Records.all Json.isObj = true ∧
    (∃ cols rows,
      write_to_csv_with_pandas c7Records "output.csv" =
        ([⟨LogLevel.info, LogMsg.dataWritten "output.csv"⟩],
         some ⟨cols, rows⟩) ∧
      (∀ col, col ∈ cols ↔
        ∃ rec ∈ c7Records, col ∈ (flattenRecord rec).map Prod.fst) ∧
      cols.Nodup ∧
      rows = c7Records.map
        (fun rec => cols.map (fun col => (flattenRecord rec).lookup col)) ∧
      (∀ rec ∈ c7Records, ∀ col,
        (flattenRecord rec).lookup col = none ↔
          col ∉ (flattenRecord rec).map Prod.fst)) ∧
    write_to_csv_with_pandas c7Records "output.csv" =
      ([⟨LogLevel.info, LogMsg.dataWritten "output.csv"⟩],
       some ⟨["id", "name", "stats.hp"],
         [[some (Json.num 1), some (Json.str "A"), none],
          [some (Json.num 2), none, some (Json.num 10)]]⟩) :=
  ⟨by decide, by decide,
   exporter_flattens_and_unions c7Records "output.csv" (by decide) (by decide),
   rfl⟩
